import Mathlib

/-!
Verification model of the Supabase MCP adapter (`src/`): the describe-table
aggregation, the unified database client, the response formatting layer, the
execute-sql guided-error path, the list-tables row-count enrichment, the
storage delete-file tool, and the tool allow-list of the entry point.
Each definition is a shallow embedding of the corresponding TypeScript
function; external effects (the SQL backend, HTTP fetch) are passed in as
explicit outcome values.
-/

namespace SupabaseMcp

/-! ## Describe-table: section tags, flags, dispatch and read-back
Embeds `createDescribeTableTool` in `src/tools/database.ts` (lines 221-774).
The handler pushes one promise per enabled flag into `queries` in a fixed
order (structure always first) and reads the awaited `results` array back
with a mutable `queryIndex` running through the same conditionals. -/

/-- Tag naming each of the eight catalog queries the describe-table handler
can issue (structure plus the seven optional sections). -/
inductive SectionTag
  | structureTag
  | constraintsTag
  | sampleTag
  | rlsTag
  | triggersTag
  | indexesTag
  | dependenciesTag
  | referencedByTag
deriving DecidableEq, Repr

/-- The seven optional boolean flags of describe-table, all defaulting to
false in the handler's destructuring. -/
structure DescribeFlags where
  includeConstraints : Bool
  includeRlsPolicies : Bool
  includeTriggers : Bool
  includeIndexes : Bool
  includeDependencies : Bool
  includeReferencedBy : Bool
  includeSampleRows : Bool
deriving DecidableEq, Repr

/-- Order in which the handler pushes the conditionally-issued queries into
the `queries` array (database.ts lines 423-451): structure always, then
constraints, sample rows, RLS policies, triggers, indexes, dependencies,
referenced-by, each guarded by its flag. -/
def dispatchedQueries (f : DescribeFlags) : List SectionTag :=
  [SectionTag.structureTag]
    ++ (if f.includeConstraints then [SectionTag.constraintsTag] else [])
    ++ (if f.includeSampleRows then [SectionTag.sampleTag] else [])
    ++ (if f.includeRlsPolicies then [SectionTag.rlsTag] else [])
    ++ (if f.includeTriggers then [SectionTag.triggersTag] else [])
    ++ (if f.includeIndexes then [SectionTag.indexesTag] else [])
    ++ (if f.includeDependencies then [SectionTag.dependenciesTag] else [])
    ++ (if f.includeReferencedBy then [SectionTag.referencedByTag] else [])

/-- Per-section results read back from the awaited `results` array
(database.ts lines 454-492); a section that was not requested stays `none`,
matching the `null` initialisation in the source. -/
structure SectionResults (α : Type) where
  structureResult : Option α
  constraintsResult : Option α
  sampleResult : Option α
  rlsResult : Option α
  triggersResult : Option α
  indexesResult : Option α
  dependenciesResult : Option α
  referencedByResult : Option α
deriving DecidableEq, Repr

/-- Read-back of the awaited results array: `structureResult` is
`results[0]` and a mutable `queryIndex` starting at 1 walks the same
conditionals in the same order as the dispatch (database.ts lines 454-492). -/
def readBack {α : Type} (f : DescribeFlags) (results : List α) : SectionResults α :=
  let i1 := 1
  let cR := if f.includeConstraints then results.get? i1 else none
  let i2 := if f.includeConstraints then i1 + 1 else i1
  let sR := if f.includeSampleRows then results.get? i2 else none
  let i3 := if f.includeSampleRows then i2 + 1 else i2
  let rR := if f.includeRlsPolicies then results.get? i3 else none
  let i4 := if f.includeRlsPolicies then i3 + 1 else i3
  let tR := if f.includeTriggers then results.get? i4 else none
  let i5 := if f.includeTriggers then i4 + 1 else i4
  let ixR := if f.includeIndexes then results.get? i5 else none
  let i6 := if f.includeIndexes then i5 + 1 else i5
  let dR := if f.includeDependencies then results.get? i6 else none
  let i7 := if f.includeDependencies then i6 + 1 else i6
  let rbR := if f.includeReferencedBy then results.get? i7 else none
  { structureResult := results.get? 0
    constraintsResult := cR
    sampleResult := sR
    rlsResult := rR
    triggersResult := tR
    indexesResult := ixR
    dependenciesResult := dR
    referencedByResult := rbR }

/-- Key fan-out/fan-in fact: reading back the mapped dispatch list pairs
every enabled flag with its own query's value, for any flag subset. -/
lemma readBack_map_dispatched (f : DescribeFlags) {α : Type} (env : SectionTag → α) :
    readBack f ((dispatchedQueries f).map env) =
      { structureResult := some (env SectionTag.structureTag)
        constraintsResult :=
          if f.includeConstraints then some (env SectionTag.constraintsTag) else none
        sampleResult :=
          if f.includeSampleRows then some (env SectionTag.sampleTag) else none
        rlsResult :=
          if f.includeRlsPolicies then some (env SectionTag.rlsTag) else none
        triggersResult :=
          if f.includeTriggers then some (env SectionTag.triggersTag) else none
        indexesResult :=
          if f.includeIndexes then some (env SectionTag.indexesTag) else none
        dependenciesResult :=
          if f.includeDependencies then some (env SectionTag.dependenciesTag) else none
        referencedByResult :=
          if f.includeReferencedBy then some (env SectionTag.referencedByTag) else none } := by
  rcases f with ⟨c, r, t, ix, d, rb, s⟩
  cases c <;> cases r <;> cases t <;> cases ix <;> cases d <;> cases rb <;> cases s <;> rfl

/-! ## JavaScript value helpers shared by several embeddings -/

/-- JavaScript truthiness on a nullable string field: `null`/`undefined` is
modelled as `none` and the empty string is falsy, so `truthyStr` returns the
string exactly when the JS value would pass an `if (x)` test. -/
def truthyStr : Option String → Option String
  | none => none
  | some s => if s = "" then none else some s

/-- The JS short-circuit `a || b` on a nullable string versus a string
default, as in `result.message || result.error || "Delete failed"`. -/
def jsOrD (a : Option String) (b : String) : String :=
  match truthyStr a with
  | some s => s
  | none => b

/-! ## Row shapes of the eight describe-table catalog queries -/

/-- Row of the column-structure query (information_schema.columns). -/
structure StructRow where
  column_name : String
  data_type : String
  is_nullable : String
  column_default : Option String
  character_maximum_length : Option Int
  numeric_precision : Option Int
  numeric_scale : Option Int
  ordinal_position : Int
deriving DecidableEq, Repr

/-- Row of the constraints query; the LEFT JOINs make every column other
than the constraint name and type nullable. -/
structure ConstraintRow where
  constraint_name : Option String
  constraint_type : Option String
  column_name : Option String
  foreign_table_name : Option String
  foreign_column_name : Option String
  update_rule : Option String
  delete_rule : Option String
  check_clause : Option String
deriving DecidableEq, Repr

/-- A sample-data row (`SELECT * FROM t LIMIT 3`): an object mapping column
names to nullable string-rendered values. -/
structure SampleRow where
  cells : List (String × Option String)
deriving DecidableEq, Repr

/-- Row of the RLS-policy query over pg_policy. -/
structure RlsRow where
  policy_name : Option String
  is_permissive : Bool
  roles : Option String
  command : Option String
  using_expression : Option String
  with_check_expression : Option String
deriving DecidableEq, Repr

/-- Row of the triggers query over information_schema.triggers. -/
structure TriggerRow where
  trigger_name : Option String
  event : Option String
  table_name : Option String
  timing : Option String
  definition : Option String
  condition : Option String
  orientation : Option String
deriving DecidableEq, Repr

/-- Row of the indexes query over pg_indexes joined with pg_index. -/
structure IndexRow where
  index_name : String
  table_name : String
  definition : String
  is_unique : Bool
  is_primary : Bool
  is_exclusion : Bool
  is_immediate : Bool
  is_clustered : Bool
  is_valid : Bool
  index_type : String
  size : String
deriving DecidableEq, Repr

/-- Row of the dependencies query over pg_depend. -/
structure DepRow where
  object_type : String
  object_name : String
  object_subid : Option Int
  referenced_type : String
  referenced_name : String
  referenced_subid : Option Int
  dependency_type : String
  dependency_type_desc : Option String
deriving DecidableEq, Repr

/-- Row of the reverse-foreign-key (referenced-by) query. -/
structure RefByRow where
  referencing_table : String
  referencing_column : String
  referenced_table : String
  referenced_column : String
  constraint_name : String
  update_rule : String
  delete_rule : String
deriving DecidableEq, Repr

/-- Typed payload of one awaited query result: each catalog query yields
rows of its own shape, so a cross-pairing bug in the read-back would show
up as a constructor mismatch. -/
inductive RowsData
  | stRows (rows : List StructRow)
  | cRows (rows : List ConstraintRow)
  | sampRows (rows : List SampleRow)
  | rlsRows (rows : List RlsRow)
  | trRows (rows : List TriggerRow)
  | ixRows (rows : List IndexRow)
  | depRows (rows : List DepRow)
  | refRows (rows : List RefByRow)
deriving DecidableEq, Repr

/-- The database's answers to the eight catalog queries for one table, on
the shared session the handler opens; the queries are read-only and
independent, so each answer is a fixed value of the environment. -/
structure DbEnv where
  structureRows : List StructRow
  constraintRows : List ConstraintRow
  sampleRows : List SampleRow
  rlsRows : List RlsRow
  triggerRows : List TriggerRow
  indexRows : List IndexRow
  dependencyRows : List DepRow
  referencedByRows : List RefByRow
deriving DecidableEq, Repr

/-- Maps each dispatched query tag to the environment's answer for it. -/
def queryEnv (db : DbEnv) : SectionTag → RowsData
  | SectionTag.structureTag => RowsData.stRows db.structureRows
  | SectionTag.constraintsTag => RowsData.cRows db.constraintRows
  | SectionTag.sampleTag => RowsData.sampRows db.sampleRows
  | SectionTag.rlsTag => RowsData.rlsRows db.rlsRows
  | SectionTag.triggersTag => RowsData.trRows db.triggerRows
  | SectionTag.indexesTag => RowsData.ixRows db.indexRows
  | SectionTag.dependenciesTag => RowsData.depRows db.dependencyRows
  | SectionTag.referencedByTag => RowsData.refRows db.referencedByRows

/-- Dispatch the enabled queries against the environment and read the
results array back, exactly as `Promise.all(queries)` followed by the
queryIndex walk does. -/
def runDescribe (f : DescribeFlags) (db : DbEnv) : SectionResults RowsData :=
  readBack f ((dispatchedQueries f).map (queryEnv db))

/-- Per-column constraint annotation pushed by the reduce at database.ts
lines 500-508. -/
structure ConstraintAnnot where
  name : Option String
  type : Option String
  foreignTable : Option String
  foreignColumn : Option String
  updateRule : Option String
  deleteRule : Option String
  checkClause : Option String
deriving DecidableEq, Repr

/-- The annotation object built from one constraint row. -/
def constraintAnnotOf (c : ConstraintRow) : ConstraintAnnot :=
  { name := c.constraint_name
    type := c.constraint_type
    foreignTable := c.foreign_table_name
    foreignColumn := c.foreign_column_name
    updateRule := c.update_rule
    deleteRule := c.delete_rule
    checkClause := c.check_clause }

/-- The `constraintsByColumn` reduce (database.ts lines 494-512): a left
fold over the constraint rows that appends an annotation under the row's
column name whenever that name is truthy. Modelled as the lookup function
the built record provides, with `[]` for absent keys (the `|| []`
fallback). -/
def constraintsByColumn (rows : List ConstraintRow) : String → List ConstraintAnnot :=
  rows.foldl
    (fun acc c =>
      match truthyStr c.column_name with
      | some nm => fun k => if k = nm then acc k ++ [constraintAnnotOf c] else acc k
      | none => acc)
    (fun _ => [])

/-- The reduce groups exactly the truthy-named rows, in order, under the
matching key. -/
lemma constraintsByColumn_eq_filter (rows : List ConstraintRow) (k : String) :
    constraintsByColumn rows k =
      (rows.filter (fun c => truthyStr c.column_name = some k)).map constraintAnnotOf := by
  suffices h : ∀ (acc : String → List ConstraintAnnot),
      (rows.foldl
        (fun acc c =>
          match truthyStr c.column_name with
          | some nm => fun k => if k = nm then acc k ++ [constraintAnnotOf c] else acc k
          | none => acc)
        acc) k =
      acc k ++ (rows.filter (fun c => truthyStr c.column_name = some k)).map constraintAnnotOf by
    simpa [constraintsByColumn] using h (fun _ => [])
  induction rows with
  | nil => intro acc; simp
  | cons c rows ih =>
    intro acc
    simp only [List.foldl_cons, List.filter_cons]
    rcases hc : truthyStr c.column_name with _ | nm
    · simp [hc, ih]
    · by_cases hk : nm = k
      · subst hk
        simp [hc, ih]
      · have hne : truthyStr c.column_name ≠ some k := by
          rw [hc]; intro h; exact hk (Option.some.inj h)
        have hkn : ¬(k = nm) := fun h => hk h.symm
        simp only [hc]
        rw [ih]
        simp [hne, hkn, if_neg hk]

/-- A column of the enriched structure: the structure row plus, when
constraints were requested, its per-column annotation list (the conditional
spread at database.ts lines 514-519). -/
structure EnrichedColumn where
  column : StructRow
  constraints : Option (List ConstraintAnnot)
deriving DecidableEq, Repr

/-- The rendered report's sections. `structureRows` is always present; each
other field is `some` exactly when the corresponding markdown section is
appended (flag on, result present, rows non-empty, and for constraints a
non-empty table-level remainder), carrying the rows the section lists. -/
structure Report where
  tableName : String
  structureRows : List EnrichedColumn
  tableConstraints : Option (List ConstraintRow)
  sampleData : Option (List SampleRow)
  rlsPolicies : Option (List RlsRow)
  triggers : Option (List TriggerRow)
  indexes : Option (List IndexRow)
  dependencies : Option (List DepRow)
  referencedBy : Option (List RefByRow)
deriving DecidableEq, Repr

/-- Extracts constraint rows from a read-back slot, `none` on a missing or
cross-paired result. -/
def getCRows : Option RowsData → Option (List ConstraintRow)
  | some (RowsData.cRows l) => some l
  | _ => none

/-- Extracts sample rows from a read-back slot. -/
def getSampRows : Option RowsData → Option (List SampleRow)
  | some (RowsData.sampRows l) => some l
  | _ => none

/-- Extracts RLS rows from a read-back slot. -/
def getRlsRows : Option RowsData → Option (List RlsRow)
  | some (RowsData.rlsRows l) => some l
  | _ => none

/-- Extracts trigger rows from a read-back slot. -/
def getTrRows : Option RowsData → Option (List TriggerRow)
  | some (RowsData.trRows l) => some l
  | _ => none

/-- Extracts index rows from a read-back slot. -/
def getIxRows : Option RowsData → Option (List IndexRow)
  | some (RowsData.ixRows l) => some l
  | _ => none

/-- Extracts dependency rows from a read-back slot. -/
def getDepRows : Option RowsData → Option (List DepRow)
  | some (RowsData.depRows l) => some l
  | _ => none

/-- Extracts referenced-by rows from a read-back slot. -/
def getRefRows : Option RowsData → Option (List RefByRow)
  | some (RowsData.refRows l) => some l
  | _ => none

/-- Builds the final report from the read-back results (database.ts lines
494-761): enrich the structure rows with per-column annotations when
constraints were requested, then conditionally attach each requested
section following the markdown assembly's guards. Returns `none` when the
structure slot is missing or mispaired (the JS code would crash there). -/
def describeTableResponse (f : DescribeFlags) (tableName : String) (db : DbEnv) :
    Option Report :=
  let res := runDescribe f db
  match res.structureResult with
  | some (RowsData.stRows srows) =>
    let cRowsOpt := getCRows res.constraintsResult
    let sampOpt := getSampRows res.sampleResult
    let rlsOpt := getRlsRows res.rlsResult
    let trOpt := getTrRows res.triggersResult
    let ixOpt := getIxRows res.indexesResult
    let depOpt := getDepRows res.dependenciesResult
    let refOpt := getRefRows res.referencedByResult
    let byCol := constraintsByColumn (cRowsOpt.getD [])
    let enriched := srows.map (fun col =>
      { column := col
        constraints :=
          if f.includeConstraints then some (byCol col.column_name) else none })
    some
      { tableName := tableName
        structureRows := enriched
        tableConstraints :=
          match f.includeConstraints, cRowsOpt with
          | true, some rows =>
            if rows.isEmpty then none
            else
              let tbl := rows.filter (fun c => (truthyStr c.column_name).isNone)
              if tbl.isEmpty then none else some tbl
          | _, _ => none
        sampleData :=
          match f.includeSampleRows, sampOpt with
          | true, some rows => if rows.isEmpty then none else some rows
          | _, _ => none
        rlsPolicies :=
          match f.includeRlsPolicies, rlsOpt with
          | true, some rows =>
            if rows.isEmpty then none
            else some (rows.filter (fun p => (truthyStr p.policy_name).isSome))
          | _, _ => none
        triggers :=
          match f.includeTriggers, trOpt with
          | true, some rows =>
            if rows.isEmpty then none
            else some (rows.filter (fun t => (truthyStr t.trigger_name).isSome))
          | _, _ => none
        indexes :=
          match f.includeIndexes, ixOpt with
          | true, some rows => if rows.isEmpty then none else some rows
          | _, _ => none
        dependencies :=
          match f.includeDependencies, depOpt with
          | true, some rows => if rows.isEmpty then none else some rows
          | _, _ => none
        referencedBy :=
          match f.includeReferencedBy, refOpt with
          | true, some rows => if rows.isEmpty then none else some rows
          | _, _ => none }
  | _ => none

/-- The all-false flag record (every optional section omitted). -/
def allFlagsFalse : DescribeFlags :=
  { includeConstraints := false
    includeRlsPolicies := false
    includeTriggers := false
    includeIndexes := false
    includeDependencies := false
    includeReferencedBy := false
    includeSampleRows := false }

/-! ## Unified database client (`src/utils/database-client.ts`) -/

/-- The two connection strategies (`DatabaseMode`). -/
inductive DatabaseMode
  | postgres
  | managementApi
deriving DecidableEq, Repr

/-- `DatabaseConfig`: the discriminated union of `PostgresConfig` and
`ManagementApiConfig`. -/
inductive DatabaseConfig
  | postgres (connectionString : String)
  | managementApi (projectRef : String) (accessToken : String) (apiUrl : Option String)
deriving DecidableEq, Repr

/-- The `mode` discriminant of a configuration. -/
def DatabaseConfig.mode : DatabaseConfig → DatabaseMode
  | DatabaseConfig.postgres _ => DatabaseMode.postgres
  | DatabaseConfig.managementApi _ _ _ => DatabaseMode.managementApi

/-- Outcome of `DatabaseClient.executeWithClient` together with an explicit
trace of its side effects: whether a client connection was opened and
whether the supplied operation was invoked. -/
structure WithClientResult (α : Type) where
  outcome : Except String α
  connectionOpened : Bool
  fnInvoked : Bool
deriving Repr

/-- `DatabaseClient.executeWithClient` (database-client.ts lines 118-140):
in postgres mode it opens a connection, runs the operation and closes the
connection on every path; in management-api mode it throws before touching
any connection. `connect` is the environment's answer to `client.connect()`
and `operation` the operation's own outcome when it runs. -/
def executeWithClient {α : Type} (cfg : DatabaseConfig) (connect : Except String Unit)
    (operation : Except String α) : WithClientResult α :=
  match cfg with
  | DatabaseConfig.postgres _ =>
    match connect with
    | Except.error e => { outcome := Except.error e, connectionOpened := true, fnInvoked := false }
    | Except.ok _ => { outcome := operation, connectionOpened := true, fnInvoked := true }
  | DatabaseConfig.managementApi _ _ _ =>
    { outcome :=
        Except.error "executeWithClient requires postgres mode. Current mode: management-api"
      connectionOpened := false
      fnInvoked := false }

/-- A column descriptor of the pg driver (`name` + `dataTypeID`). -/
structure FieldInfo where
  name : String
  dataTypeID : Int
deriving DecidableEq, Repr

/-- Result of a successful `client.query` on the pg driver: rows, the
driver-reported `rowCount` (which is `null` for some statements and is the
affected-row count, not `rows.length`, for data-modifying statements), the
command tag and the field descriptors. -/
structure PgDriverResult (ρ : Type) where
  rows : List ρ
  rowCount : Option Int
  command : String
  fields : List FieldInfo
deriving DecidableEq, Repr

/-- The client's `QueryResult` record (database-client.ts lines 23-28). -/
structure QueryResultRec (ρ : Type) where
  rows : List ρ
  rowCount : Option Int
  command : Option String
  fields : Option (List FieldInfo)
deriving DecidableEq, Repr

/-- `queryPostgres` (lines 58-86): passes the driver result through,
keeping command and fields. -/
def queryPostgres {ρ : Type} (res : PgDriverResult ρ) : QueryResultRec ρ :=
  { rows := res.rows
    rowCount := res.rowCount
    command := some res.command
    fields := some res.fields }

/-- `queryManagementApi` (lines 91-112): the HTTP endpoint returns only a
row array, and the client sets `rowCount` to `rows.length`, leaving
command and fields absent. -/
def queryManagementApi {ρ : Type} (rows : List ρ) : QueryResultRec ρ :=
  { rows := rows
    rowCount := some (rows.length : Int)
    command := none
    fields := none }

/-- `DatabaseClient.query` (lines 44-53): strategy dispatch on the
configured mode. `pg` and `api` are the respective backends' successful
outcomes for the given SQL text and parameters. -/
def queryRun {ρ : Type} (cfg : DatabaseConfig) (pg : PgDriverResult ρ) (api : List ρ) :
    QueryResultRec ρ :=
  match cfg with
  | DatabaseConfig.postgres _ => queryPostgres pg
  | DatabaseConfig.managementApi _ _ _ => queryManagementApi api

/-! ## Response formatting (`src/utils/response.ts`) -/

/-- The argument handed to `createErrorResponse`: either a JS `Error`
instance (whose `.message` is used) or a plain object literal
`{status, message}` as the storage tools construct (which is not an
`Error`, so `String(error)` applies to it). -/
inductive JsErrorArg
  | errorInstance (message : String)
  | statusMessage (status : Option Int) (message : String)
deriving DecidableEq, Repr

/-- The JS expression `error instanceof Error ? error.message :
String(error)`: a plain object literal stringifies to
`"[object Object]"`. -/
def jsStringOf : JsErrorArg → String
  | JsErrorArg.errorInstance m => m
  | JsErrorArg.statusMessage _ _ => "[object Object]"

/-- The serialized `{error: true, message}` body of an error response. -/
structure ErrorBody where
  error : Bool
  message : String
deriving DecidableEq, Repr

/-- A tool handler's returned payload, by wire shape. -/
inductive ToolResponse
  | jsonBody (text : String)
  | errorBody (body : ErrorBody)
  | markdownBody (text : String)
  | guidedError (message : String) (guidance : String)
deriving DecidableEq, Repr

/-- `createErrorResponse` (response.ts lines 12-29): wraps
`{error: true, message}` where the message is `.message` for an `Error`
and `String(error)` otherwise. -/
def createErrorResponse (e : JsErrorArg) : ToolResponse :=
  ToolResponse.errorBody { error := true, message := jsStringOf e }

/-- Modelled from the spec: `createMarkdownResponse` (imported by the tools
from `../utils/response.js` but not present under `src/`) wraps a
human-readable markdown rendering as a text payload. -/
def createMarkdownResponse (text : String) : ToolResponse :=
  ToolResponse.markdownBody text

/-- Modelled from the spec: `createGuidedErrorResponse` (imported by the
tools from `../utils/response.js` but not present under `src/`) is the
guided-error payload — a structured error carrying the original failure
message augmented with remediation-guidance text (spec section 4.4: "This
is advisory text generation, not error recovery — the original failure is
still reported as failed"). -/
def createGuidedErrorResponse (message : String) (guidance : String) : ToolResponse :=
  ToolResponse.guidedError message guidance

/-! ## Execute-sql tool with guided errors (`src/tools/database.ts`) -/

/-- Case-insensitive character comparison, for the `/i` regex flag. -/
def charIEq (a b : Char) : Bool :=
  a.toLower == b.toLower

/-- Case-insensitive prefix test on character lists. -/
def startsWithCI : List Char → List Char → Bool
  | [], _ => true
  | _ :: _, [] => false
  | p :: ps, c :: cs => charIEq p c && startsWithCI ps cs

/-- Embeds the matching of a case-insensitive regex of shape
`pre(CAP+)post` where the capture is a non-empty run of characters not
satisfying `stop`: scan left to right for the first position where the
whole pattern matches and return the capture. -/
def scanCapture (pre post : List Char) (stop : Char → Bool) : List Char → Option (List Char)
  | [] => none
  | c :: cs =>
    if startsWithCI pre (c :: cs) then
      let t := (c :: cs).drop pre.length
      let cap := t.takeWhile (fun ch => !stop ch)
      let rest := t.drop cap.length
      if !cap.isEmpty && startsWithCI post rest then some cap
      else scanCapture pre post stop cs
    else scanCapture pre post stop cs

/-- The regex `/column "([^"]+)" does not exist/i` of
`createEnhancedErrorResponse`. -/
def columnErrorMatch (s : String) : Option (List Char) :=
  scanCapture ("column \"".toList) ("\" does not exist".toList) (fun ch => ch == '"') s.toList

/-- The regex `/relation "([^"]+)" does not exist/i` of
`createEnhancedErrorResponse`. -/
def relationErrorMatch (s : String) : Option (List Char) :=
  scanCapture ("relation \"".toList) ("\" does not exist".toList) (fun ch => ch == '"') s.toList

/-- The regex `/column "([^"]+)" of relation "([^"]+)"/i` of
`createEnhancedErrorResponse`, returning the relation capture. -/
def scanColumnOfRelation : List Char → Option (List Char)
  | [] => none
  | c :: cs =>
    if startsWithCI ("column \"".toList) (c :: cs) then
      let t := (c :: cs).drop ("column \"".toList).length
      let cap1 := t.takeWhile (fun ch => ch != '"')
      let r1 := t.drop cap1.length
      if !cap1.isEmpty && startsWithCI ("\" of relation \"".toList) r1 then
        let t2 := r1.drop ("\" of relation \"".toList).length
        let cap2 := t2.takeWhile (fun ch => ch != '"')
        let r2 := t2.drop cap2.length
        if !cap2.isEmpty && startsWithCI ("\"".toList) r2 then some cap2
        else scanColumnOfRelation cs
      else scanColumnOfRelation cs
    else scanColumnOfRelation cs

/-- String-level entry point of the column-of-relation regex. -/
def columnOfRelationMatch (s : String) : Option (List Char) :=
  scanColumnOfRelation s.toList

/-- The general "Query Analysis" guidance text built for errors that match
none of the three SQL patterns (database.ts lines 147-158). -/
def queryAnalysisGuidance (query : String) : String :=
  "### Query Analysis\n\n"
    ++ "**Query**: `" ++ query ++ "`\n\n"
    ++ "### Debugging Steps\n\n"
    ++ "1. Check syntax - Ensure SQL syntax is correct\n"
    ++ "2. Verify permissions - Ensure you have access to the requested resources\n"
    ++ "3. Review data types - Ensure values match column data types\n\n"
    ++ "### Helpful Commands\n\n"
    ++ "- `list-tables` - See all available tables\n"
    ++ "- `describe-table` - Get detailed table structure\n"
    ++ "- `describe-functions` - List available database functions\n"

/-- `createEnhancedErrorResponse` (database.ts lines 57-159). When the
error message matches one of the three SQL patterns, the function runs the
guidance-building closure through `dbClient.executeWithClient` and returns
whatever that returns — so an exception thrown there (in particular the
fail-fast throw of management-api mode) propagates out, which is why the
result is `Except`: an `Except.error` is an uncaught rejection.
`guidanceOp` abstracts the guidance-building closure of lines 74-143 (its
body never runs before the mode check); the theorems below hold for every
such closure. -/
def createEnhancedErrorResponse (cfg : DatabaseConfig) (connect : Except String Unit)
    (guidanceOp : Except String ToolResponse) (errorMessage query : String) :
    Except String ToolResponse :=
  if (columnErrorMatch errorMessage).isSome || (relationErrorMatch errorMessage).isSome
      || (columnOfRelationMatch errorMessage).isSome then
    (executeWithClient cfg connect guidanceOp).outcome
  else
    Except.ok (createGuidedErrorResponse errorMessage (queryAnalysisGuidance query))

/-- One cell lookup `(row as Record<string, unknown>)[h]`: `none` when the
key is absent (JS `undefined`), otherwise the nullable stored value. -/
def jsIndex (row : List (String × Option String)) (h : String) : Option (Option String) :=
  (row.find? (fun p => p.1 == h)).map Prod.snd

/-- Rendering of one cell in the success markdown (database.ts lines
198-204), with cell values modelled as nullable strings. -/
def renderCellVal : Option (Option String) → String
  | none => "undefined"
  | some none => "*null*"
  | some (some s) => if s = "" then "*empty*" else s

/-- The success-path markdown of execute-sql (database.ts lines 174-211):
header with optional command and row count, then either a table of rows,
or the command-only / no-rows special cases. -/
def renderSqlSuccess (r : QueryResultRec (List (String × Option String))) : String :=
  let header := "### Query Result\n\n"
    ++ (match r.command with
        | some c => "**Command**: " ++ c ++ "\n"
        | none => "")
    ++ (match r.rowCount with
        | some n => "**Rows affected**: " ++ toString n ++ "\n"
        | none => "")
    ++ "\n"
  match r.rows with
  | [] =>
    header ++ (match r.command with
      | some _ => "*Query executed successfully*"
      | none => "*No rows returned*")
  | first :: _ =>
    let headers := first.map Prod.fst
    header
      ++ "| " ++ String.intercalate " | " headers ++ " |\n"
      ++ "|" ++ String.intercalate "|" (headers.map (fun _ => "---")) ++ "|\n"
      ++ String.join (r.rows.map (fun row =>
          "| " ++ String.intercalate " | "
            (headers.map (fun h => renderCellVal (jsIndex row h))) ++ " |\n"))

/-- The execute-sql handler (database.ts lines 169-217): on success format
the result as markdown; on failure delegate to
`createEnhancedErrorResponse` from inside the catch block, so any throw
inside the enhanced-error path is no longer caught. `queryOutcome` is the
outcome of `dbClient.query(query)`. -/
def executeSqlHandler (cfg : DatabaseConfig) (connect : Except String Unit)
    (guidanceOp : Except String ToolResponse)
    (queryOutcome : Except String (QueryResultRec (List (String × Option String))))
    (query : String) : Except String ToolResponse :=
  match queryOutcome with
  | Except.ok r => Except.ok (createMarkdownResponse (renderSqlSuccess r))
  | Except.error msg => createEnhancedErrorResponse cfg connect guidanceOp msg query

/-! ## List-tables tool (`src/tools/database.ts` lines 848-925) -/

/-- Row of the tables query (name, type, comment, column count). -/
structure TableRow where
  table_name : String
  table_type : String
  table_comment : Option String
  column_count : Int
deriving DecidableEq, Repr

/-- One entry of the produced listing: the table row spread together with
`row_count` and, on a failed count, the inline `error` marker. -/
structure TableEntry where
  table : TableRow
  row_count : Option Nat
  error : Option String
deriving DecidableEq, Repr

/-- The per-table enrichment (database.ts lines 877-895): each table's
`SELECT COUNT(*)` runs in its own try/catch, so a failing count maps that
table to a null count plus the marker instead of rejecting the join.
`countQuery` is the environment's outcome for each table's count query. -/
def listTablesWithCounts (tables : List TableRow)
    (countQuery : String → Except String Nat) : List TableEntry :=
  tables.map (fun t =>
    match countQuery t.table_name with
    | Except.ok n => { table := t, row_count := some n, error := none }
    | Except.error _ =>
      { table := t, row_count := none, error := some "Could not get row count" })

/-- The list-tables handler up to the merged entries: the listing fails
only if the tables query itself fails; per-table count failures are
absorbed by `listTablesWithCounts`. -/
def listTablesHandler (tablesOutcome : Except String (List TableRow))
    (countQuery : String → Except String Nat) : Except String (List TableEntry) :=
  tablesOutcome.map (fun tables => listTablesWithCounts tables countQuery)

/-! ## Storage delete-file tool (`src/tools/storage.ts`) -/

/-- Parsed JSON body of a storage error response (`result.message` /
`result.error`). -/
structure FetchBody where
  message : Option String
  error : Option String
deriving DecidableEq, Repr

/-- Outcome of the `fetch` call: a network-level rejection (a JS `Error`)
or an HTTP response with a status and parsed body. -/
inductive FetchOutcome
  | networkFailure (message : String)
  | httpResponse (status : Nat) (body : FetchBody)
deriving DecidableEq, Repr

/-- `response.ok`: status in the 2xx range. -/
def responseOk (status : Nat) : Bool :=
  200 ≤ status && status < 300

/-- The delete-file handler (storage.ts `createDeleteFileTool`): DELETE the
object URL; on a non-ok response pass the object literal
`{status, message: result.message || result.error || "Delete failed"}` to
`createErrorResponse`; on a network failure pass the thrown `Error`. -/
def deleteFileHandler (bucketName filePath : String) (fetch : FetchOutcome) : ToolResponse :=
  match fetch with
  | FetchOutcome.networkFailure m => createErrorResponse (JsErrorArg.errorInstance m)
  | FetchOutcome.httpResponse status body =>
    if responseOk status then
      createMarkdownResponse
        ("### File Deleted\n\n✅ Successfully deleted: **" ++ bucketName ++ "/" ++ filePath ++ "**")
    else
      createErrorResponse
        (JsErrorArg.statusMessage (some (status : Int))
          (jsOrD body.message (jsOrD body.error "Delete failed")))

/-! ## Tool allow-list of the entry point (`src/index.ts` lines 44-137) -/

/-- JS `String.prototype.split(sep)` on a single-character separator: the
empty string splits to `[""]`, and every separator occurrence opens a new
(possibly empty) field. -/
def splitOnChar (sep : Char) : List Char → List (List Char)
  | [] => [[]]
  | c :: rest =>
    let r := splitOnChar sep rest
    if c = sep then [] :: r
    else
      match r with
      | h :: t => (c :: h) :: t
      | [] => [[c]]

/-- Whitespace stripped by `String.prototype.trim()` (modelled over the
ASCII whitespace characters). -/
def isJsWhitespace (c : Char) : Bool :=
  c = ' ' || c = '\t' || c = '\n' || c = '\r'

/-- JS `t.trim()`: drop leading and trailing whitespace. -/
def trimChars (cs : List Char) : List Char :=
  ((cs.dropWhile isJsWhitespace).reverse.dropWhile isJsWhitespace).reverse

/-- `process.env.ENABLED_TOOLS?.split(',').map(t => t.trim()) || []`: an
unset variable yields the empty list; a set variable (even the empty
string) is split on commas and trimmed — note `"".split(',')` is `[""]`,
a non-empty array. -/
def parseEnabledTools : Option String → List String
  | none => []
  | some s => (splitOnChar ',' s.toList).map (fun cs => String.mk (trimChars cs))

/-- `isToolEnabled` (index.ts line 45): enabled when the parsed list is
empty or contains the tool's name. -/
def isToolEnabled (enabledTools : List String) (toolName : String) : Bool :=
  enabledTools.length == 0 || enabledTools.contains toolName

/-- The seventeen tool names in registration order (index.ts lines
52-137). -/
def allToolNames : List String :=
  ["execute-sql", "describe-table", "describe-functions", "list-tables",
   "get-function-definition", "upload-file", "delete-file", "list-files",
   "download-file", "create-bucket", "delete-bucket", "move-file",
   "copy-file", "generate-signed-url", "get-file-info", "list-buckets",
   "empty-bucket"]

/-- The set of tools registered at startup for a given `ENABLED_TOOLS`
environment value: each registration block is guarded by
`isToolEnabled(name)`. -/
def registeredTools (envValue : Option String) : List String :=
  allToolNames.filter (fun n => isToolEnabled (parseEnabledTools envValue) n)

/-! ## Characterization of the describe-table response -/

/-- Closed form of `describeTableResponse`: for every flag subset the
construction succeeds and each section is determined by its own flag and
the database's answer for its own query. Proved by exhausting the 128 flag
combinations, which exercises the dispatch/read-back pairing on each. -/
lemma describeTableResponse_eq (f : DescribeFlags) (tableName : String) (db : DbEnv) :
    describeTableResponse f tableName db = some
      { tableName := tableName
        structureRows := db.structureRows.map (fun col =>
          { column := col
            constraints :=
              if f.includeConstraints then
                some (constraintsByColumn db.constraintRows col.column_name)
              else none })
        tableConstraints :=
          if f.includeConstraints then
            (if db.constraintRows.isEmpty then none
             else
               let tbl := db.constraintRows.filter (fun c => (truthyStr c.column_name).isNone)
               if tbl.isEmpty then none else some tbl)
          else none
        sampleData :=
          if f.includeSampleRows then
            (if db.sampleRows.isEmpty then none else some db.sampleRows)
          else none
        rlsPolicies :=
          if f.includeRlsPolicies then
            (if db.rlsRows.isEmpty then none
             else some (db.rlsRows.filter (fun p => (truthyStr p.policy_name).isSome)))
          else none
        triggers :=
          if f.includeTriggers then
            (if db.triggerRows.isEmpty then none
             else some (db.triggerRows.filter (fun t => (truthyStr t.trigger_name).isSome)))
          else none
        indexes :=
          if f.includeIndexes then
            (if db.indexRows.isEmpty then none else some db.indexRows)
          else none
        dependencies :=
          if f.includeDependencies then
            (if db.dependencyRows.isEmpty then none else some db.dependencyRows)
          else none
        referencedBy :=
          if f.includeReferencedBy then
            (if db.referencedByRows.isEmpty then none else some db.referencedByRows)
          else none } := by
  rcases f with ⟨c, r, t, ix, d, rb, s⟩
  cases c <;> cases r <;> cases t <;> cases ix <;> cases d <;> cases rb <;> cases s <;> rfl

/-! ## Claim theorems -/

/-- C1: for every subset of the seven optional flags, the dispatch order of
the conditionally-issued queries and the read-back walk of the awaited
results array pair each enabled flag with exactly its own query's result
(first conjunct, for arbitrary result values), and consequently each
sub-section of two reports built over the same database agrees whenever its
own flag agrees, regardless of how all other flags differ (second
conjunct). -/
theorem c1_section_independence :
    (∀ (f : DescribeFlags) (α : Type) (env : SectionTag → α),
      readBack f ((dispatchedQueries f).map env) =
        { structureResult := some (env SectionTag.structureTag)
          constraintsResult :=
            if f.includeConstraints then some (env SectionTag.constraintsTag) else none
          sampleResult :=
            if f.includeSampleRows then some (env SectionTag.sampleTag) else none
          rlsResult :=
            if f.includeRlsPolicies then some (env SectionTag.rlsTag) else none
          triggersResult :=
            if f.includeTriggers then some (env SectionTag.triggersTag) else none
          indexesResult :=
            if f.includeIndexes then some (env SectionTag.indexesTag) else none
          dependenciesResult :=
            if f.includeDependencies then some (env SectionTag.dependenciesTag) else none
          referencedByResult :=
            if f.includeReferencedBy then some (env SectionTag.referencedByTag) else none }) ∧
    (∀ (f g : DescribeFlags) (tableName : String) (db : DbEnv) (rf rg : Report),
      describeTableResponse f tableName db = some rf →
      describeTableResponse g tableName db = some rg →
      (f.includeConstraints = g.includeConstraints →
        rf.structureRows = rg.structureRows ∧ rf.tableConstraints = rg.tableConstraints) ∧
      (f.includeSampleRows = g.includeSampleRows → rf.sampleData = rg.sampleData) ∧
      (f.includeRlsPolicies = g.includeRlsPolicies → rf.rlsPolicies = rg.rlsPolicies) ∧
      (f.includeTriggers = g.includeTriggers → rf.triggers = rg.triggers) ∧
      (f.includeIndexes = g.includeIndexes → rf.indexes = rg.indexes) ∧
      (f.includeDependencies = g.includeDependencies → rf.dependencies = rg.dependencies) ∧
      (f.includeReferencedBy = g.includeReferencedBy → rf.referencedBy = rg.referencedBy)) := by
  constructor
  · intro f α env
    exact readBack_map_dispatched f env
  · intro f g tableName db rf rg hf hg
    rw [describeTableResponse_eq] at hf hg
    replace hf := Option.some.inj hf
    replace hg := Option.some.inj hg
    subst hf
    subst hg
    refine ⟨fun h => ⟨by rw [h], by rw [h]⟩, fun h => by rw [h], fun h => by rw [h],
      fun h => by rw [h], fun h => by rw [h], fun h => by rw [h], fun h => by rw [h]⟩

/-- Structure row of the C1 witness database. -/
def c1Col : StructRow := ⟨"id", "integer", "NO", none, none, some 32, some 0, 1⟩

/-- Primary-key constraint row of the C1 witness database. -/
def c1Pk : ConstraintRow :=
  ⟨some "users_pkey", some "PRIMARY KEY", some "id", none, none, none, none, none⟩

/-- Sample row of the C1 witness database. -/
def c1Samp : SampleRow := ⟨[("id", some "1")]⟩

/-- A concrete one-column database environment for the C1 witness. -/
def c1Db : DbEnv := ⟨[c1Col], [c1Pk], [c1Samp], [], [], [], [], []⟩

/-- Flags requesting constraints and sample rows. -/
def c1FlagsA : DescribeFlags := ⟨true, false, false, false, false, false, true⟩

/-- Flags requesting only sample rows. -/
def c1FlagsB : DescribeFlags := ⟨false, false, false, false, false, false, true⟩

/-- Report produced for `c1FlagsA` over `c1Db`. -/
def c1RepA : Report :=
  { tableName := "users"
    structureRows := [⟨c1Col, some [constraintAnnotOf c1Pk]⟩]
    tableConstraints := none
    sampleData := some [c1Samp]
    rlsPolicies := none
    triggers := none
    indexes := none
    dependencies := none
    referencedBy := none }

/-- Report produced for `c1FlagsB` over `c1Db`. -/
def c1RepB : Report :=
  { tableName := "users"
    structureRows := [⟨c1Col, none⟩]
    tableConstraints := none
    sampleData := some [c1Samp]
    rlsPolicies := none
    triggers := none
    indexes := none
    dependencies := none
    referencedBy := none }

/-- Witness for C1: enabling constraints on top of sample rows leaves the
sample-data section unchanged on a concrete table. -/
theorem c1_section_independence_witness : c1RepA.sampleData = c1RepB.sampleData :=
  ((c1_section_independence.2 c1FlagsA c1FlagsB "users" c1Db c1RepA c1RepB
      (by decide) (by decide)).2.1) rfl

/-- C2: with all seven optional flags false (their default), the report is
exactly the structure rows — unannotated, one per returned column — with
every optional section absent; in particular a zero-row structure result
yields `some` report with an empty structure list, not an error. -/
theorem c2_structure_only (tableName : String) (db : DbEnv) :
    describeTableResponse allFlagsFalse tableName db =
      some { tableName := tableName
             structureRows :=
               db.structureRows.map (fun col => { column := col, constraints := none })
             tableConstraints := none
             sampleData := none
             rlsPolicies := none
             triggers := none
             indexes := none
             dependencies := none
             referencedBy := none } ∧
    (db.structureRows.map
        (fun col => ({ column := col, constraints := none } : EnrichedColumn))).length =
      db.structureRows.length := by
  exact ⟨rfl, by simp⟩

/-- C3: when constraints are requested, each structure row is annotated
with exactly the constraint rows whose (truthy) column name equals that
row's column name, in order; the rows without a column name are excluded
from every per-column annotation and form the separate table-level
constraints section (present when any exist). -/
theorem c3_constraint_attachment (f : DescribeFlags) (hc : f.includeConstraints = true)
    (tableName : String) (db : DbEnv) :
    ∃ rep, describeTableResponse f tableName db = some rep ∧
      rep.structureRows =
        db.structureRows.map (fun col =>
          { column := col
            constraints := some ((db.constraintRows.filter
                (fun c => truthyStr c.column_name = some col.column_name)).map
              constraintAnnotOf) }) ∧
      rep.tableConstraints =
        (if db.constraintRows.isEmpty = true
            ∨ (db.constraintRows.filter
                (fun c => (truthyStr c.column_name).isNone)).isEmpty = true
          then none
          else some (db.constraintRows.filter (fun c => (truthyStr c.column_name).isNone))) := by
  refine ⟨_, describeTableResponse_eq f tableName db, ?_, ?_⟩
  · simp only [hc, if_true]
    have hfun :
        (fun col =>
          (⟨col, some (constraintsByColumn db.constraintRows col.column_name)⟩ :
            EnrichedColumn)) =
        (fun col =>
          (⟨col, some ((db.constraintRows.filter
              (fun c => truthyStr c.column_name = some col.column_name)).map
            constraintAnnotOf)⟩ : EnrichedColumn)) := by
      funext col
      rw [constraintsByColumn_eq_filter]
    rw [hfun]
  · simp only [hc, if_true]
    by_cases h1 : db.constraintRows.isEmpty = true <;>
      by_cases h2 : (db.constraintRows.filter
          (fun c => (truthyStr c.column_name).isNone)).isEmpty = true <;>
      simp [h1, h2]

/-- Flags for the C3 witness: constraints only. -/
def c3Flags : DescribeFlags := ⟨true, false, false, false, false, false, false⟩

/-- Database for the C3 witness: two columns; one keyed constraint row, one
with no column name, one with an empty (falsy) column name. -/
def c3Db : DbEnv :=
  ⟨[⟨"id", "integer", "NO", none, none, some 32, some 0, 1⟩,
    ⟨"name", "text", "YES", none, none, none, none, 2⟩],
   [⟨some "users_pkey", some "PRIMARY KEY", some "id", none, none, none, none, none⟩,
    ⟨some "users_check", some "CHECK", none, none, none, none, none, some "(true)"⟩,
    ⟨some "odd_row", some "CHECK", some "", none, none, none, none, none⟩],
   [], [], [], [], [], []⟩

/-- Witness for C3 at a concrete table with keyed, unkeyed and
empty-string-keyed constraint rows. -/
theorem c3_constraint_attachment_witness :
    ∃ rep, describeTableResponse c3Flags "users" c3Db = some rep ∧
      rep.structureRows =
        c3Db.structureRows.map (fun col =>
          { column := col
            constraints := some ((c3Db.constraintRows.filter
                (fun c => truthyStr c.column_name = some col.column_name)).map
              constraintAnnotOf) }) ∧
      rep.tableConstraints =
        (if c3Db.constraintRows.isEmpty = true
            ∨ (c3Db.constraintRows.filter
                (fun c => (truthyStr c.column_name).isNone)).isEmpty = true
          then none
          else some (c3Db.constraintRows.filter (fun c => (truthyStr c.column_name).isNone))) :=
  c3_constraint_attachment c3Flags rfl "users" c3Db

/-- C4: when the tables query succeeds, the listing always succeeds as a
whole; each table's entry is computed from its own count query alone — a
successful count yields the parsed count, a failing count yields a null
count plus the inline error marker — so one failing count never disturbs
the other entries or aborts the listing. -/
theorem c4_count_failure_isolation (tables : List TableRow)
    (countQuery : String → Except String Nat) :
    listTablesHandler (Except.ok tables) countQuery =
      Except.ok (listTablesWithCounts tables countQuery) ∧
    (listTablesWithCounts tables countQuery).length = tables.length ∧
    (∀ i t, tables.get? i = some t →
      (listTablesWithCounts tables countQuery).get? i = some
        (match countQuery t.table_name with
         | Except.ok n => { table := t, row_count := some n, error := none }
         | Except.error _ =>
           { table := t, row_count := none, error := some "Could not get row count" })) := by
  refine ⟨rfl, by simp [listTablesWithCounts], ?_⟩
  intro i t hit
  unfold listTablesWithCounts
  rw [List.get?_map, hit]
  rfl

/-- Tables of the C4 witness listing. -/
def wTables : List TableRow :=
  [⟨"users", "BASE TABLE", none, 3⟩, ⟨"secrets", "BASE TABLE", none, 2⟩,
   ⟨"posts", "BASE TABLE", none, 4⟩]

/-- Count-query environment of the C4 witness: permission denied on the
`secrets` table only. -/
def wCountQuery : String → Except String Nat := fun name =>
  if name == "secrets" then Except.error "permission denied for table secrets"
  else if name == "users" then Except.ok 12
  else Except.ok 7

/-- Witness for C4: with one permission-denied table, the listing succeeds,
keeps all three tables, marks only the broken one and keeps the others'
counts. -/
theorem c4_count_failure_isolation_witness :
    listTablesHandler (Except.ok wTables) wCountQuery =
      Except.ok (listTablesWithCounts wTables wCountQuery) ∧
    (listTablesWithCounts wTables wCountQuery).length = wTables.length ∧
    (listTablesWithCounts wTables wCountQuery).get? 0 =
      some { table := ⟨"users", "BASE TABLE", none, 3⟩, row_count := some 12, error := none } ∧
    (listTablesWithCounts wTables wCountQuery).get? 1 =
      some { table := ⟨"secrets", "BASE TABLE", none, 2⟩, row_count := none
             error := some "Could not get row count" } ∧
    (listTablesWithCounts wTables wCountQuery).get? 2 =
      some { table := ⟨"posts", "BASE TABLE", none, 4⟩, row_count := some 7, error := none } := by
  have h := c4_count_failure_isolation wTables wCountQuery
  exact ⟨h.1, h.2.1,
    h.2.2 0 ⟨"users", "BASE TABLE", none, 3⟩ rfl,
    h.2.2 1 ⟨"secrets", "BASE TABLE", none, 2⟩ rfl,
    h.2.2 2 ⟨"posts", "BASE TABLE", none, 4⟩ rfl⟩

/-- C5 (failing-input evaluation): in management-api mode, an execute-sql
failure whose message matches the `relation ... does not exist` pattern
sends the handler's catch block into `createEnhancedErrorResponse`, whose
`executeWithClient` call throws; the throw happens inside the catch block,
so the handler's promise rejects with the raw error instead of returning a
structured `error: true` payload — for every guidance-building closure and
connection environment. -/
theorem c5_guided_error_escape (projectRef accessToken : String) (apiUrl : Option String)
    (connect : Except String Unit) (guidanceOp : Except String ToolResponse) :
    executeSqlHandler (DatabaseConfig.managementApi projectRef accessToken apiUrl) connect
        guidanceOp (Except.error "relation \"nonexistent_table\" does not exist")
        "SELECT * FROM nonexistent_table"
      = Except.error "executeWithClient requires postgres mode. Current mode: management-api" := by
  rfl

/-- C6: calling `executeWithClient` while the strategy is configured in
management-api mode fails fast with the fixed error, without opening any
connection and without invoking the supplied operation, whatever they
are. -/
theorem c6_fail_fast_in_remote_mode (α : Type) (cfg : DatabaseConfig)
    (h : cfg.mode = DatabaseMode.managementApi) (connect : Except String Unit)
    (operation : Except String α) :
    executeWithClient cfg connect operation =
      { outcome :=
          Except.error "executeWithClient requires postgres mode. Current mode: management-api"
        connectionOpened := false
        fnInvoked := false } := by
  cases cfg with
  | postgres s => simp [DatabaseConfig.mode] at h
  | managementApi a b c => rfl

/-- Witness for C6 at a concrete management-api configuration, a
succeeding connection environment and a succeeding operation. -/
theorem c6_fail_fast_in_remote_mode_witness :
    executeWithClient (DatabaseConfig.managementApi "proj" "token" none)
        (Except.ok ()) (Except.ok (7 : Nat)) =
      { outcome :=
          Except.error "executeWithClient requires postgres mode. Current mode: management-api"
        connectionOpened := false
        fnInvoked := false } :=
  c6_fail_fast_in_remote_mode Nat (DatabaseConfig.managementApi "proj" "token" none)
    rfl (Except.ok ()) (Except.ok 7)

/-- C7 (counterexample): for a data-modifying statement on which both
backends succeed with the same (empty) row content — the driver reporting
`rowCount = 1` for one affected row — the two modes' results differ in the
row-count value as well, not only in the presence of fields and command
tag. -/
theorem c7_counterexample :
    (queryRun (DatabaseConfig.postgres "postgres://db")
        (⟨[], some 1, "INSERT", []⟩ : PgDriverResult Nat) []).rows =
      (queryRun (DatabaseConfig.managementApi "proj" "token" none)
        (⟨[], some 1, "INSERT", []⟩ : PgDriverResult Nat) []).rows ∧
    (queryRun (DatabaseConfig.postgres "postgres://db")
        (⟨[], some 1, "INSERT", []⟩ : PgDriverResult Nat) []).rowCount ≠
      (queryRun (DatabaseConfig.managementApi "proj" "token" none)
        (⟨[], some 1, "INSERT", []⟩ : PgDriverResult Nat) []).rowCount := by
  exact ⟨rfl, by decide⟩

/-- C7 (amended): whenever both backends succeed and return the same rows,
the two modes' results have identical row content; the differences are
confined to the command tag and field metadata (absent in remote mode,
present in direct mode) and to the row-count value (`rows.length` in remote
mode versus the driver-reported count in direct mode). -/
theorem c7_row_content_agreement (ρ : Type) (connStr projectRef accessToken : String)
    (apiUrl : Option String) (pg : PgDriverResult ρ) (api : List ρ) (h : pg.rows = api) :
    (queryRun (DatabaseConfig.postgres connStr) pg api).rows =
      (queryRun (DatabaseConfig.managementApi projectRef accessToken apiUrl) pg api).rows ∧
    (queryRun (DatabaseConfig.managementApi projectRef accessToken apiUrl) pg api).command =
      none ∧
    (queryRun (DatabaseConfig.managementApi projectRef accessToken apiUrl) pg api).fields =
      none ∧
    (queryRun (DatabaseConfig.managementApi projectRef accessToken apiUrl) pg api).rowCount =
      some (api.length : Int) ∧
    (queryRun (DatabaseConfig.postgres connStr) pg api).command = some pg.command ∧
    (queryRun (DatabaseConfig.postgres connStr) pg api).fields = some pg.fields ∧
    (queryRun (DatabaseConfig.postgres connStr) pg api).rowCount = pg.rowCount := by
  subst h
  exact ⟨rfl, rfl, rfl, rfl, rfl, rfl, rfl⟩

/-- Witness for the amended C7 at a concrete one-row SELECT on which both
backends agree. -/
theorem c7_row_content_agreement_witness :
    (queryRun (DatabaseConfig.postgres "postgres://db")
        (⟨[5], some 1, "SELECT", []⟩ : PgDriverResult Nat) [5]).rows =
      (queryRun (DatabaseConfig.managementApi "proj" "token" none)
        (⟨[5], some 1, "SELECT", []⟩ : PgDriverResult Nat) [5]).rows ∧
    (queryRun (DatabaseConfig.managementApi "proj" "token" none)
        (⟨[5], some 1, "SELECT", []⟩ : PgDriverResult Nat) [5]).command = none ∧
    (queryRun (DatabaseConfig.managementApi "proj" "token" none)
        (⟨[5], some 1, "SELECT", []⟩ : PgDriverResult Nat) [5]).fields = none ∧
    (queryRun (DatabaseConfig.managementApi "proj" "token" none)
        (⟨[5], some 1, "SELECT", []⟩ : PgDriverResult Nat) [5]).rowCount =
      some (([5] : List Nat).length : Int) ∧
    (queryRun (DatabaseConfig.postgres "postgres://db")
        (⟨[5], some 1, "SELECT", []⟩ : PgDriverResult Nat) [5]).command = some "SELECT" ∧
    (queryRun (DatabaseConfig.postgres "postgres://db")
        (⟨[5], some 1, "SELECT", []⟩ : PgDriverResult Nat) [5]).fields = some [] ∧
    (queryRun (DatabaseConfig.postgres "postgres://db")
        (⟨[5], some 1, "SELECT", []⟩ : PgDriverResult Nat) [5]).rowCount = some 1 :=
  c7_row_content_agreement Nat "postgres://db" "proj" "token" none
    ⟨[5], some 1, "SELECT", []⟩ [5] rfl

/-- C8 (counterexample): a remote-mode query returning one row has
`rowCount = some 1`, not the absent row count the claim asserts — the
management-api branch sets `rowCount` to `rows.length`. -/
theorem c8_counterexample :
    (queryRun (DatabaseConfig.managementApi "proj" "token" none)
        (⟨[3], some 1, "SELECT", []⟩ : PgDriverResult Nat) [3]).rowCount ≠ none := by
  decide

/-- C8 (amended): in remote-execution mode the returned row count is the
length of the returned rows array, while in direct mode it is the
driver-reported count passed through unchanged. -/
theorem c8_rowcount_by_mode (ρ : Type) (connStr projectRef accessToken : String)
    (apiUrl : Option String) (pg : PgDriverResult ρ) (api : List ρ) :
    (queryRun (DatabaseConfig.managementApi projectRef accessToken apiUrl) pg api).rowCount =
      some (api.length : Int) ∧
    (queryRun (DatabaseConfig.postgres connStr) pg api).rowCount = pg.rowCount :=
  ⟨rfl, rfl⟩

/-- C9 (failing-input evaluation): a storage delete whose HTTP response is
404 with body message "Object not found" produces the payload
`{error: true, message: "[object Object]"}` — `createErrorResponse`
stringifies the `{status, message}` object literal, so neither the 404
status nor the service's message reaches the caller. -/
theorem c9_status_message_lost :
    deleteFileHandler "avatars" "img.png"
        (FetchOutcome.httpResponse 404 { message := some "Object not found", error := none }) =
      ToolResponse.errorBody { error := true, message := "[object Object]" } := by
  rfl

/-- C10 (counterexample): with `ENABLED_TOOLS` set to the empty string the
parsed list is `[""]`, which is non-empty and contains no tool name, so no
tool at all is registered — the claim's "unset or empty means everything
enabled" fails on the empty string. -/
theorem c10_counterexample :
    registeredTools (some "") ≠ allToolNames ∧ registeredTools (some "") = [] := by
  exact ⟨by decide, by decide⟩

/-- C10 (amended): an unset `ENABLED_TOOLS` registers every tool; a set
value — including the empty string, whose parsed list is `[""]` — registers
exactly the tools whose names appear in the comma-separated trimmed list,
so the empty string registers nothing and unknown names enable nothing
extra. -/
theorem c10_allow_list (s : String) (h : (parseEnabledTools (some s)).length ≠ 0) :
    registeredTools none = allToolNames ∧
    registeredTools (some "") = [] ∧
    registeredTools (some s) =
      allToolNames.filter (fun n => (parseEnabledTools (some s)).contains n) := by
  refine ⟨by decide, by decide, ?_⟩
  unfold registeredTools isToolEnabled
  apply List.filter_congr
  intro x hx
  have hb : ((parseEnabledTools (some s)).length == 0) = false := by
    simp only [beq_eq_false_iff_ne, ne_eq]
    exact h
  rw [hb, Bool.false_or]

/-- Witness for the amended C10 at a two-name allow-list (with a stray
space that trimming removes). -/
theorem c10_allow_list_witness :
    registeredTools none = allToolNames ∧
    registeredTools (some "") = [] ∧
    registeredTools (some "execute-sql, list-tables") =
      allToolNames.filter
        (fun n => (parseEnabledTools (some "execute-sql, list-tables")).contains n) :=
  c10_allow_list "execute-sql, list-tables" (by decide)

end SupabaseMcp
